import Mathlib

/-!
# Verification of the accreditation scoring core

Shallow embedding, in Lean 4, of the deterministic scoring engine of the
repository (backend/services and backend/utils).  Python numbers are
modelled as rationals (`ℚ`); Python `None` as `Option.none`; fallible
computations return `Option`.  The final presentational `round(x, 2)`
that the Python code applies to scores just before returning them is a
floating-point display detail and is omitted from the model: every
theorem below is about the exact value the formulas compute.

Conventions:
* `pyOr` models Python's `a or b` on numeric-or-None values (`0` and
  `None` are falsy).
* Evidence dictionaries are modelled by `PyEv`: a missing key
  (`.absent`), a present-but-empty dict (`.emptyDict`, falsy in Python),
  or a non-empty dict carrying `snippet` and `source_doc` strings
  (an absent string key behaves like `""`, both being falsy).
* `parse_numeric` lives in `utils/parse_numeric.py`, which is not part
  of the source tree; where a model needs it, it is modelled from the
  spec (a raw representation is parsed to the numeric value it denotes,
  when one exists).
-/

/-- A Python value as the scoring core sees it: `None`, a number, or a
raw string. -/
inductive PyVal where
  | none : PyVal
  | num (q : ℚ) : PyVal
  | str (s : String) : PyVal
deriving DecidableEq, Repr

/-- Python truthiness of a `PyVal` (`None`, `0` and `""` are falsy). -/
def PyVal.truthy : PyVal → Bool
  | .none => false
  | .num q => decide (q ≠ 0)
  | .str s => decide (s ≠ "")

/-- Modelled from the spec: `parse_numeric` (from the absent
`utils/parse_numeric.py`) returns the numeric value a representation
denotes, when one exists — a number parses to itself, a string of
decimal digits to the natural number it spells, anything else to
`None`.  The spec: "A raw unparsed representation may be retained
alongside a parsed numeric form"; "Unparseable non-numeric fields are
kept verbatim only if no numeric counterpart exists." -/
def parse_numeric : PyVal → Option ℚ
  | .none => Option.none
  | .num q => some q
  | .str s => (s.toNat?).map (fun n => (n : ℚ))

/-- Extract the numeric content of a `PyVal` (used where the Python code
reads a pre-parsed `*_num` field and uses it directly as a number). -/
def PyVal.asNum : PyVal → Option ℚ
  | .num q => some q
  | _ => Option.none

/-- Python `a or b` on numeric-or-None operands: `a` is returned when it
is truthy (non-`None` and non-zero), otherwise `b`. -/
def pyOr (a b : Option ℚ) : Option ℚ :=
  match a with
  | some v => if v = 0 then b else some v
  | Option.none => b

/-- An evidence record as the guards see it: the key is absent from the
evidence map, or maps to an empty (falsy) dict, or to a non-empty dict
whose `snippet` and `source_doc` entries are the given strings (a
missing entry is modelled by `""`; both are falsy in Python). -/
inductive PyEv where
  | absent : PyEv
  | emptyDict : PyEv
  | ev (snippet source_doc : String) : PyEv
deriving DecidableEq, Repr

/-- Python truthiness of an evidence record (any non-empty dict is
truthy). -/
def PyEv.truthy : PyEv → Bool
  | .absent => false
  | .emptyDict => false
  | .ev _ _ => true

/-- Python `a or b` on evidence records. -/
def pyOrEv (a b : PyEv) : PyEv := if a.truthy then a else b

/-- `ProductionGuard.validate_evidence_required`
(services/production_guard.py, lines 55–83): a `None` value passes
trivially; otherwise the evidence dict must be truthy and carry a
non-empty `snippet` or a non-empty `source_doc` (either one suffices).
Returns the boolean first component of the Python `(ok, reason)` pair. -/
def validate_evidence_required (value : Option ℚ) (evidence : PyEv) : Bool :=
  match value with
  | Option.none => true
  | some _ =>
    match evidence with
    | .absent => false
    | .emptyDict => false
    | .ev s d => if s = "" ∧ d = "" then false else true

/-- `EvidenceTracker.validate_evidence`
(services/evidence_tracker.py, lines 122–148): a `None` value passes
trivially; otherwise the evidence dict must be truthy, with a non-empty
`snippet` AND a non-empty `source_doc`.  Returns the boolean first
component of the Python `(is_valid, error_message)` pair. -/
def tracker_validate_evidence (value : Option ℚ) (evidence : PyEv) : Bool :=
  match value with
  | Option.none => true
  | some _ =>
    match evidence with
    | .absent => false
    | .emptyDict => false
    | .ev s d => if s = "" then false else if d = "" then false else true

/-- C10: the guard check actually used by the formula libraries,
`ProductionGuard.validate_evidence_required`, is strictly weaker than
`EvidenceTracker.validate_evidence`: for a non-null value the former
passes whenever the evidence dict has a non-empty snippet OR a
non-empty source document id, the latter only when it has BOTH; both
pass trivially on a null value.  Strictness: evidence with only a
snippet passes the guard but fails the tracker. -/
theorem guard_weaker_than_tracker :
    (∀ (v : ℚ) (s d : String),
      validate_evidence_required (some v) (.ev s d) = true ↔ (s ≠ "" ∨ d ≠ "")) ∧
    (∀ (v : ℚ) (s d : String),
      tracker_validate_evidence (some v) (.ev s d) = true ↔ (s ≠ "" ∧ d ≠ "")) ∧
    (∀ (v : ℚ) (e : PyEv),
      tracker_validate_evidence (some v) e = true →
        validate_evidence_required (some v) e = true) ∧
    (∀ e : PyEv, validate_evidence_required Option.none e = true ∧
      tracker_validate_evidence Option.none e = true) ∧
    (validate_evidence_required (some 5) (.ev "page 3 snippet" "") = true ∧
      tracker_validate_evidence (some 5) (.ev "page 3 snippet" "") = false) := by
  refine ⟨?_, ?_, ?_, ?_, by decide⟩
  · intro v s d
    simp only [validate_evidence_required]
    by_cases hs : s = "" <;> by_cases hd : d = "" <;> simp [hs, hd]
  · intro v s d
    simp only [tracker_validate_evidence]
    by_cases hs : s = "" <;> by_cases hd : d = "" <;> simp [hs, hd]
  · intro v e h
    cases e with
    | absent => simp [tracker_validate_evidence] at h
    | emptyDict => simp [tracker_validate_evidence] at h
    | ev s d =>
      simp only [tracker_validate_evidence] at h
      by_cases hs : s = "" <;> by_cases hd : d = "" <;>
        simp [validate_evidence_required, hs, hd] at h ⊢
  · intro e
    exact ⟨rfl, rfl⟩

/-- Witness for C10: the tracker-implies-guard direction at a concrete
input, every hypothesis discharged concretely. -/
theorem guard_weaker_than_tracker_witness :
    validate_evidence_required (some 7) (.ev "snip" "doc.pdf") = true :=
  guard_weaker_than_tracker.2.2.1 7 (.ev "snip" "doc.pdf") (by decide)

/-!
## AICTE Faculty-Student Ratio (C1)

`OfficialKPIService.calculate_aicte_fsr` (services/kpi_official.py,
lines 27–157).  The facts dict is modelled as `String → PyVal` (Python
`data.get(k)` is `data k`, `None` for an absent key), the evidence map
as `String → PyEv`, and the `programs_approved` list by the already
parsed intake of each program entry.
-/

/-- The faculty-count `or`-chain of `calculate_aicte_fsr`
(kpi_official.py, lines 45–50). -/
def fsr_faculty_count (data : String → PyVal) : Option ℚ :=
  pyOr (data "faculty_count_num").asNum
    (pyOr (parse_numeric (data "faculty_count"))
      (pyOr (parse_numeric (data "total_faculty"))
        (parse_numeric (data "faculty"))))

/-- The student-count `or`-chain of `calculate_aicte_fsr`
(kpi_official.py, lines 52–60). -/
def fsr_student_count_chain (data : String → PyVal) : Option ℚ :=
  pyOr (data "student_count_num").asNum
    (pyOr (data "total_students_num").asNum
      (pyOr (data "total_intake_num").asNum
        (pyOr (parse_numeric (data "total_students"))
          (pyOr (parse_numeric (data "student_count"))
            (pyOr (parse_numeric (data "total_intake"))
              (parse_numeric (data "admitted_students")))))))

/-- The `programs_approved` fallback (kpi_official.py, lines 63–73):
sum the truthy intakes; adopt the sum only when it is positive. -/
def sumIntakes (programs : List (Option ℚ)) : ℚ :=
  programs.foldl
    (fun acc p =>
      match p with
      | some q => if q = 0 then acc else acc + q
      | Option.none => acc) 0

/-- Student count including the `programs_approved` fallback. -/
def fsr_student_count (data : String → PyVal) (programs : List (Option ℚ)) :
    Option ℚ :=
  match fsr_student_count_chain data with
  | some v => some v
  | Option.none =>
      if sumIntakes programs > 0 then some (sumIntakes programs) else Option.none

/-- The evidence record `calculate_aicte_fsr` consults for the faculty
count (kpi_official.py, line 76). -/
def fsr_faculty_evidence (emap : String → PyEv) : PyEv :=
  pyOrEv (pyOrEv (emap "faculty_count") (emap "total_faculty")) .emptyDict

/-- The evidence record `calculate_aicte_fsr` consults for the student
count (kpi_official.py, line 77). -/
def fsr_student_evidence (emap : String → PyEv) : PyEv :=
  pyOrEv (pyOrEv (emap "student_count") (emap "total_students")) .emptyDict

/-- The piecewise FSR scoring rule (kpi_official.py, lines 117–132). -/
def fsrScoreOfRatio (r : ℚ) : ℚ :=
  if r ≤ 15 then 100
  else if r ≤ 20 then 100 + (r - 15) * (-8)
  else max 0 (60 - (r - 20) * 3)

/-- `OfficialKPIService.calculate_aicte_fsr` (kpi_official.py, lines
27–157), returning the score (`None` for every "missing inputs" and
"zero count" early return; the trace dict is presentational and
omitted; so is the final display `round(score, 2)`). -/
def calculate_aicte_fsr (data : String → PyVal) (programs : List (Option ℚ))
    (emap : String → PyEv) : Option ℚ :=
  let faculty_count :=
    if validate_evidence_required (fsr_faculty_count data)
        (fsr_faculty_evidence emap) then
      fsr_faculty_count data
    else Option.none
  let student_count :=
    if validate_evidence_required (fsr_student_count data programs)
        (fsr_student_evidence emap) then
      fsr_student_count data programs
    else Option.none
  match faculty_count, student_count with
  | some f, some s =>
      if f = 0 ∨ s = 0 then Option.none else some (fsrScoreOfRatio (s / f))
  | _, _ => Option.none

/-- C1: for every evidenced faculty count `f > 0` and student count
`s > 0`, with ratio `r = s / f`, the FSR score is `100` when `r ≤ 15`,
`100 + (r − 15)·(−8)` when `15 < r ≤ 20` (so `score 15 = 100` and
`score 20 = 60`, continuous at both breakpoints), and
`max 0 (60 − 3·(r − 20))` when `r > 20`; if either input lacks
evidence the result is unknown. -/
theorem aicte_fsr_spec :
    (∀ (data : String → PyVal) (programs : List (Option ℚ))
        (emap : String → PyEv) (f s : ℚ),
      data "faculty_count_num" = .num f → data "student_count_num" = .num s →
      0 < f → 0 < s →
      validate_evidence_required (some f) (fsr_faculty_evidence emap) = true →
      validate_evidence_required (some s) (fsr_student_evidence emap) = true →
      ((s / f ≤ 15 → calculate_aicte_fsr data programs emap = some 100) ∧
       (15 < s / f → s / f ≤ 20 →
         calculate_aicte_fsr data programs emap =
           some (100 + (s / f - 15) * (-8))) ∧
       (20 < s / f →
         calculate_aicte_fsr data programs emap =
           some (max 0 (60 - 3 * (s / f - 20)))))) ∧
    (fsrScoreOfRatio 15 = 100 ∧ fsrScoreOfRatio 20 = 60) ∧
    (∀ (data : String → PyVal) (programs : List (Option ℚ))
        (emap : String → PyEv) (f s : ℚ),
      data "faculty_count_num" = .num f → data "student_count_num" = .num s →
      0 < f → 0 < s →
      (validate_evidence_required (some f) (fsr_faculty_evidence emap) = false ∨
       validate_evidence_required (some s) (fsr_student_evidence emap) = false) →
      calculate_aicte_fsr data programs emap = Option.none) := by
  have hchainF : ∀ (data : String → PyVal) (f : ℚ),
      data "faculty_count_num" = .num f → f ≠ 0 →
      fsr_faculty_count data = some f := by
    intro data f hd hf
    simp [fsr_faculty_count, hd, PyVal.asNum, pyOr, hf]
  have hchainS : ∀ (data : String → PyVal) (programs : List (Option ℚ)) (s : ℚ),
      data "student_count_num" = .num s → s ≠ 0 →
      fsr_student_count data programs = some s := by
    intro data programs s hd hs
    simp [fsr_student_count, fsr_student_count_chain, hd, PyVal.asNum, pyOr, hs]
  refine ⟨?_, ⟨by norm_num [fsrScoreOfRatio], by norm_num [fsrScoreOfRatio]⟩, ?_⟩
  · intro data programs emap f s hdf hds hf hs hef hes
    have hF := hchainF data f hdf hf.ne'
    have hS := hchainS data programs s hds hs.ne'
    have hmain : calculate_aicte_fsr data programs emap =
        some (fsrScoreOfRatio (s / f)) := by
      simp [calculate_aicte_fsr, hF, hS, hef, hes, hf.ne', hs.ne']
    refine ⟨?_, ?_, ?_⟩
    · intro h15
      rw [hmain]; simp [fsrScoreOfRatio, h15]
    · intro h15 h20
      rw [hmain]; simp [fsrScoreOfRatio, not_le.mpr h15, h20]
    · intro h20
      rw [hmain]
      have h1 : ¬ s / f ≤ 15 := by linarith
      have h2 : ¬ s / f ≤ 20 := by linarith
      simp only [fsrScoreOfRatio, if_neg h1, if_neg h2]
      congr 1
      ring_nf
  · intro data programs emap f s hdf hds hf hs hev
    have hF := hchainF data f hdf hf.ne'
    have hS := hchainS data programs s hds hs.ne'
    rcases hev with h | h <;>
      simp [calculate_aicte_fsr, hF, hS, h]

/-- Witness for C1: faculty = 100, students = 1750 (evidenced), ratio
17.5, score 80 (the spec's literal example scenario 2). -/
theorem aicte_fsr_spec_witness :
    calculate_aicte_fsr
      (fun k => if k = "faculty_count_num" then .num 100
        else if k = "student_count_num" then .num 1750 else .none)
      []
      (fun k => if k = "faculty_count" ∨ k = "student_count"
        then .ev "snippet" "doc.pdf" else .absent) = some 80 := by
  have h := (aicte_fsr_spec.1
      (fun k => if k = "faculty_count_num" then .num 100
        else if k = "student_count_num" then .num 1750 else .none)
      []
      (fun k => if k = "faculty_count" ∨ k = "student_count"
        then .ev "snippet" "doc.pdf" else .absent)
      100 1750 (by decide) (by decide) (by norm_num) (by norm_num)
      (by decide) (by decide)).2.1 (by norm_num) (by norm_num)
  rw [h]
  norm_num

/-!
## NAAC full-coverage CGPA (C2)

`NAACCalculationEngine.calculate_cgpa`
(services/naac_calculation_engine.py, lines 113–154) with the weight
table `NAAC_WEIGHTS` (lines 21–31).  The map of the seven criterion
scores C1–C7 is modelled as a function `CritId → Option ℚ`.
-/

/-- The seven NAAC criterion ids C1–C7. -/
inductive CritId where
  | c1 | c2 | c3 | c4 | c5 | c6 | c7
deriving DecidableEq, Repr

/-- `NAAC_WEIGHTS` (naac_calculation_engine.py, lines 21–29). -/
def naacWeight : CritId → ℚ
  | .c1 => 150
  | .c2 => 200
  | .c3 => 250
  | .c4 => 100
  | .c5 => 100
  | .c6 => 100
  | .c7 => 100

/-- The ids in the order the code checks them (line 130). -/
def allCrits : List CritId := [.c1, .c2, .c3, .c4, .c5, .c6, .c7]

/-- `TOTAL_WEIGHT = sum(NAAC_WEIGHTS.values())` (line 31). -/
def naacTotalWeight : ℚ := (allCrits.map naacWeight).sum

/-- The `missing` list built by `calculate_cgpa` (lines 127–132). -/
def naac_missing (scores : CritId → Option ℚ) : List CritId :=
  allCrits.filter (fun c => (scores c).isNone)

/-- `NAACCalculationEngine.calculate_cgpa` (lines 113–154): `(cgpa,
missing_criteria)`; the `formula_used` string is presentational and
omitted, as is the display `round(cgpa, 2)`. -/
def calculate_cgpa (scores : CritId → Option ℚ) : Option ℚ × List CritId :=
  if naac_missing scores = [] then
    (some ((allCrits.foldl (fun acc c => acc + (scores c).getD 0 * naacWeight c) 0)
        / naacTotalWeight),
      [])
  else (Option.none, naac_missing scores)

/-- C2: the overall NAAC score is unknown iff at least one of the seven
criterion scores is missing; the missing-id list is exactly the set of
missing criterion ids; and when none is missing the overall equals the
weight-normalized weighted sum of all seven scores. -/
theorem naac_cgpa_spec :
    (∀ scores : CritId → Option ℚ,
      (calculate_cgpa scores).1 = Option.none ↔
        ∃ c : CritId, scores c = Option.none) ∧
    (∀ (scores : CritId → Option ℚ) (c : CritId),
      c ∈ (calculate_cgpa scores).2 ↔ scores c = Option.none) ∧
    (∀ (scores : CritId → Option ℚ) (q : CritId → ℚ),
      (∀ c, scores c = some (q c)) →
      (calculate_cgpa scores).1 =
        some ((q .c1 * 150 + q .c2 * 200 + q .c3 * 250 + q .c4 * 100 +
               q .c5 * 100 + q .c6 * 100 + q .c7 * 100) /
              (150 + 200 + 250 + 100 + 100 + 100 + 100))) := by
  have hmem : ∀ (scores : CritId → Option ℚ) (c : CritId),
      c ∈ naac_missing scores ↔ scores c = Option.none := by
    intro scores c
    have hall : c ∈ allCrits := by cases c <;> simp [allCrits]
    simp [naac_missing, List.mem_filter, hall, Option.isNone_iff_eq_none]
  refine ⟨?_, ?_, ?_⟩
  · intro scores
    by_cases h : naac_missing scores = []
    · simp only [calculate_cgpa, h, if_pos rfl]
      constructor
      · intro hnone; exact absurd hnone (by simp)
      · rintro ⟨c, hc⟩
        have : c ∈ naac_missing scores := (hmem scores c).mpr hc
        rw [h] at this
        exact absurd this (List.not_mem_nil c)
    · simp only [calculate_cgpa, if_neg h]
      constructor
      · intro _
        rcases List.exists_mem_of_ne_nil _ h with ⟨c, hc⟩
        exact ⟨c, (hmem scores c).mp hc⟩
      · intro _; trivial
  · intro scores c
    by_cases h : naac_missing scores = []
    · simp only [calculate_cgpa, h, if_pos rfl]
      constructor
      · intro hc; exact absurd hc (List.not_mem_nil c)
      · intro hc
        have : c ∈ naac_missing scores := (hmem scores c).mpr hc
        rw [h] at this
        exact absurd this (List.not_mem_nil c)
    · simp only [calculate_cgpa, if_neg h]
      exact hmem scores c
  · intro scores q hq
    have h : naac_missing scores = [] := by
      simp [naac_missing, allCrits, List.filter, hq]
    unfold calculate_cgpa
    rw [if_pos h]
    simp only [allCrits, List.foldl, hq, Option.getD_some, naacTotalWeight,
      List.map, List.sum_cons, List.sum_nil, naacWeight]
    ring_nf

/-- Witness for C2: all seven criteria present (3, 3, 3, 3, 3, 3, 3)
gives CGPA 3; the weighted-sum component applied at a concrete map. -/
theorem naac_cgpa_spec_witness :
    (calculate_cgpa (fun _ => some 3)).1 = some 3 := by
  have h := naac_cgpa_spec.2.2 (fun _ => some 3) (fun _ => 3) (fun _ => rfl)
  rw [h]
  norm_num

/-!
## Partial-average overall aggregation (C3)

`OfficialKPIService.calculate_aicte_overall` (kpi_official.py, lines
572–626) and `OfficialKPIService.calculate_nba_overall` (lines
660–683).  The AICTE aggregator reads four named KPI slots and returns
`(score, included, excluded)`; the NBA aggregator averages the values
of its criterion-score dict (modelled as the list of those values) and
returns only the score.
-/

/-- The fixed AICTE KPI display names, in the order of the code. -/
def aicteKpiNames : List String :=
  ["FSR", "Infrastructure", "Placement", "Lab Compliance"]

/-- `OfficialKPIService.calculate_aicte_overall` (kpi_official.py,
lines 572–626): `(overall, included, excluded)` (display rounding
omitted). -/
def calculate_aicte_overall (fsr infra placement lab : Option ℚ) :
    Option ℚ × List String × List String :=
  let pairs : List (Option ℚ × String) :=
    [(fsr, "FSR"), (infra, "Infrastructure"),
     (placement, "Placement"), (lab, "Lab Compliance")]
  let available : List ℚ := pairs.filterMap (fun p => p.1)
  let included : List String := pairs.filterMap (fun p => p.1.map (fun _ => p.2))
  if available = [] then (Option.none, [], aicteKpiNames)
  else
    (some (available.sum / available.length), included,
      aicteKpiNames.filter (fun n => !(included.contains n)))

/-- `OfficialKPIService.calculate_nba_overall` (kpi_official.py, lines
660–683): average of the available (non-None) criterion scores, `None`
when none is available (display rounding omitted). -/
def calculate_nba_overall (scores : List (Option ℚ)) : Option ℚ :=
  let available := scores.filterMap id
  if available = [] then Option.none
  else some (available.sum / available.length)

/-- C3: a partial-average overall score is unknown iff zero sub-results
are available; otherwise it is the arithmetic mean of exactly the
available sub-results; and the included/excluded lists are exactly the
available/missing sub-result ids. -/
theorem partial_average_spec :
    (∀ fsr infra placement lab : Option ℚ,
      ((calculate_aicte_overall fsr infra placement lab).1 = Option.none ↔
        (fsr = Option.none ∧ infra = Option.none ∧
         placement = Option.none ∧ lab = Option.none)) ∧
      (∀ avail : List ℚ, avail = List.filterMap id [fsr, infra, placement, lab] →
        avail ≠ [] →
        (calculate_aicte_overall fsr infra placement lab).1 =
          some (avail.sum / avail.length)) ∧
      (("FSR" ∈ (calculate_aicte_overall fsr infra placement lab).2.1 ↔
          fsr.isSome = true) ∧
       ("Infrastructure" ∈ (calculate_aicte_overall fsr infra placement lab).2.1 ↔
          infra.isSome = true) ∧
       ("Placement" ∈ (calculate_aicte_overall fsr infra placement lab).2.1 ↔
          placement.isSome = true) ∧
       ("Lab Compliance" ∈ (calculate_aicte_overall fsr infra placement lab).2.1 ↔
          lab.isSome = true)) ∧
      (("FSR" ∈ (calculate_aicte_overall fsr infra placement lab).2.2 ↔
          fsr = Option.none) ∧
       ("Infrastructure" ∈ (calculate_aicte_overall fsr infra placement lab).2.2 ↔
          infra = Option.none) ∧
       ("Placement" ∈ (calculate_aicte_overall fsr infra placement lab).2.2 ↔
          placement = Option.none) ∧
       ("Lab Compliance" ∈ (calculate_aicte_overall fsr infra placement lab).2.2 ↔
          lab = Option.none))) ∧
    (∀ scores : List (Option ℚ),
      (calculate_nba_overall scores = Option.none ↔
        scores.filterMap id = []) ∧
      (scores.filterMap id ≠ [] →
        calculate_nba_overall scores =
          some ((scores.filterMap id).sum / (scores.filterMap id).length))) := by
  constructor
  · intro fsr infra placement lab
    cases fsr <;> cases infra <;> cases placement <;> cases lab <;>
      refine ⟨by simp [calculate_aicte_overall], ?_, ?_, ?_⟩ <;>
      first
        | (intro avail ha hne; subst ha;
           first
             | (exact absurd rfl hne)
             | simp [calculate_aicte_overall])
        | (refine ⟨?_, ?_, ?_, ?_⟩ <;> simp [calculate_aicte_overall, aicteKpiNames])
  · intro scores
    constructor
    · simp only [calculate_nba_overall]
      by_cases h : scores.filterMap id = [] <;> simp [h]
    · intro h
      simp only [calculate_nba_overall]
      simp [h]

/-- Witness for C3: the spec's literal scenario 6 — sub-scores
`{A: 100, B: unknown, C: 90, D: unknown}` average to 95 over exactly
the two available ones. -/
theorem partial_average_spec_witness :
    calculate_nba_overall [some 100, Option.none, some 90, Option.none] =
      some 95 := by
  have h := (partial_average_spec.2
      [some 100, Option.none, some 90, Option.none]).2 (by decide)
  rw [h]
  norm_num [List.filterMap]

/-!
## Conditional PR parameter (C4)

Two implementations are in play:
* `NIRFCalculationEngine.calculate_pr`
  (services/nirf_calculation_engine.py, lines 288–331) takes an
  explicit `has_perception_survey` flag and returns `None` whenever it
  is false.
* `NIRFFormulas.calculate_pr` (services/nirf_formulas.py, lines
  356–422) — the implementation dispatched by
  `OfficialKPIService.calculate_nirf_parameter` — takes no flag at all
  and scores whatever perception fields are present.
-/

/-- `NIRFCalculationEngine.calculate_pr` (nirf_calculation_engine.py,
lines 288–331).  `perception_data` is `None` for a falsy dict and
otherwise carries the `peer/employer/academic_perception` entries; the
returned sub-score dict and status string are omitted, as is the
per-sub-score display rounding. -/
def engine_calculate_pr (has_perception_survey : Bool)
    (perception_data : Option (Option ℚ × Option ℚ × Option ℚ))
    (evidence_doc_ids : List String) : Option ℚ :=
  if !has_perception_survey then Option.none
  else if evidence_doc_ids = [] then Option.none
  else
    match perception_data with
    | Option.none => Option.none
    | some (peer, employer, academic) =>
      let subs := ([peer, employer, academic]).filterMap id
      if subs = [] then Option.none else some (subs.sum / subs.length)

/-- The peer-perception `or`-chain of `NIRFFormulas.calculate_pr`
(nirf_formulas.py, line 369). -/
def pr_peer (data : String → PyVal) : Option ℚ :=
  pyOr (parse_numeric (data "peer_perception"))
    (parse_numeric (data "peer_ranking"))

/-- The employer-perception `or`-chain (nirf_formulas.py, line 370). -/
def pr_employer (data : String → PyVal) : Option ℚ :=
  pyOr (parse_numeric (data "employer_perception"))
    (parse_numeric (data "employer_rating"))

/-- The public-perception `or`-chain (nirf_formulas.py, line 371). -/
def pr_public (data : String → PyVal) : Option ℚ :=
  pyOr (parse_numeric (data "public_perception"))
    (parse_numeric (data "public_ranking"))

/-- `NIRFFormulas.calculate_pr` (nirf_formulas.py, lines 356–422):
weighted mean (0.50/0.30/0.20) of the perception components present,
each capped at 100; `None` when no component is present.  It consults
no survey flag; the evidence map feeds only the trace dict and is
omitted.  Display rounding omitted. -/
def formulas_calculate_pr (data : String → PyVal) : Option ℚ :=
  let comps : List (ℚ × ℚ) :=
    (match pr_peer data with
      | some v => [(min 100 v, 1/2)] | Option.none => []) ++
    (match pr_employer data with
      | some v => [(min 100 v, 3/10)] | Option.none => []) ++
    (match pr_public data with
      | some v => [(min 100 v, 1/5)] | Option.none => [])
  if comps = [] then Option.none
  else
    let total_weight := (comps.map Prod.snd).sum
    let weighted_sum := (comps.map (fun c => c.1 * c.2)).sum
    some (if total_weight > 0 then weighted_sum / total_weight else 0)

/-- Counterexample to C4: a fact set carrying perception fields but no
"survey provided" flag anywhere (the formula-library PR has no flag
parameter at all) still yields a computed score, not unknown:
`NIRFFormulas.calculate_pr` on `{peer: 85, employer: 80, public: 75}`
returns 81.5. -/
theorem formulas_pr_ignores_survey_flag :
    formulas_calculate_pr
      (fun k => if k = "peer_perception" then .num 85
        else if k = "employer_perception" then .num 80
        else if k = "public_perception" then .num 75 else .none) =
      some (163/2) ∧
    (some (163/2 : ℚ) ≠ (Option.none : Option ℚ)) := by
  constructor
  · have hp : pr_peer (fun k => if k = "peer_perception" then .num 85
        else if k = "employer_perception" then .num 80
        else if k = "public_perception" then .num 75 else .none) = some 85 := by
      simp [pr_peer, parse_numeric, pyOr]
    have he : pr_employer (fun k => if k = "peer_perception" then .num 85
        else if k = "employer_perception" then .num 80
        else if k = "public_perception" then .num 75 else .none) = some 80 := by
      simp [pr_employer, parse_numeric, pyOr]
    have hu : pr_public (fun k => if k = "peer_perception" then .num 85
        else if k = "employer_perception" then .num 80
        else if k = "public_perception" then .num 75 else .none) = some 75 := by
      simp [pr_public, parse_numeric, pyOr]
    rw [formulas_calculate_pr, hp, he, hu]
    norm_num
    try simp
  · simp

/-- C4 as amended: the engine implementation
(`NIRFCalculationEngine.calculate_pr`) is unknown whenever the upstream
`has_perception_survey` flag is false, regardless of the perception
data and evidence present; the formula-library implementation
(`NIRFFormulas.calculate_pr`), dispatched by
`calculate_nirf_parameter`, consults no flag: it is unknown exactly
when no perception field is present. -/
theorem conditional_pr_spec :
    (∀ (perception_data : Option (Option ℚ × Option ℚ × Option ℚ))
        (evidence_doc_ids : List String),
      engine_calculate_pr false perception_data evidence_doc_ids =
        Option.none) ∧
    (∀ data : String → PyVal,
      formulas_calculate_pr data = Option.none ↔
        (pr_peer data = Option.none ∧ pr_employer data = Option.none ∧
         pr_public data = Option.none)) := by
  constructor
  · intro perception_data evidence_doc_ids
    rfl
  · intro data
    rcases hp : pr_peer data with _ | p <;>
      rcases he : pr_employer data with _ | e <;>
        rcases hu : pr_public data with _ | u <;>
          rw [formulas_calculate_pr, hp, he, hu] <;> (norm_num; try simp)

/-- Witness for C4 (amended): the engine PR at a concrete input with
rich perception data but flag false is unknown; the formula-library
equivalence applied at a fact set with no perception fields. -/
theorem conditional_pr_spec_witness :
    engine_calculate_pr false (some (some 85, some 80, some 75))
      ["doc1.pdf"] = Option.none ∧
    formulas_calculate_pr (fun _ => .none) = Option.none := by
  constructor
  · exact conditional_pr_spec.1 (some (some 85, some 80, some 75)) ["doc1.pdf"]
  · exact (conditional_pr_spec.2 (fun _ => .none)).mpr
      ⟨rfl, rfl, rfl⟩

/-!
## Ratio-based percentage scoring (C5)

`OfficialKPIService.calculate_aicte_placement` (kpi_official.py, lines
388–485) and `OfficialKPIService.calculate_aicte_lab_compliance`
(lines 487–570).
-/

/-- The direct placement-rate `or`-chain (kpi_official.py, lines
400–404). -/
def placement_rate_chain (data : String → PyVal) : Option ℚ :=
  pyOr (data "placement_rate_num").asNum
    (pyOr (parse_numeric (data "placement_percentage"))
      (parse_numeric (data "placement_rate")))

/-- The students-placed `or`-chain (kpi_official.py, lines 408–413). -/
def placed_chain (data : String → PyVal) : Option ℚ :=
  pyOr (data "students_placed_num").asNum
    (pyOr (data "total_placements_num").asNum
      (pyOr (parse_numeric (data "students_placed"))
        (parse_numeric (data "total_placements"))))

/-- The students-eligible `or`-chain (kpi_official.py, lines 415–422). -/
def eligible_chain (data : String → PyVal) : Option ℚ :=
  pyOr (data "students_eligible_num").asNum
    (pyOr (data "student_count_num").asNum
      (pyOr (data "total_students_num").asNum
        (pyOr (parse_numeric (data "students_eligible"))
          (pyOr (parse_numeric (data "total_students"))
            (parse_numeric (data "student_count"))))))

/-- Evidence consulted for the placed numerator (line 425). -/
def placed_evidence (emap : String → PyEv) : PyEv :=
  pyOrEv (pyOrEv (emap "students_placed") (emap "total_placements")) .emptyDict

/-- Evidence consulted for the eligible denominator (line 426). -/
def eligible_evidence (emap : String → PyEv) : PyEv :=
  pyOrEv (pyOrEv (pyOrEv (emap "students_eligible") (emap "total_students"))
    (emap "student_count")) .emptyDict

/-- `OfficialKPIService.calculate_aicte_placement` (kpi_official.py,
lines 388–485), score only (trace dict and display rounding omitted). -/
def calculate_aicte_placement (data : String → PyVal) (emap : String → PyEv) :
    Option ℚ :=
  match placement_rate_chain data with
  | some r => some (min r 100)
  | Option.none =>
    let placed :=
      if validate_evidence_required (placed_chain data) (placed_evidence emap)
      then placed_chain data else Option.none
    let eligible :=
      if validate_evidence_required (eligible_chain data)
          (eligible_evidence emap)
      then eligible_chain data else Option.none
    match placed, eligible with
    | some p, some e =>
        if e = 0 then Option.none else some (min (p / e * 100) 100)
    | _, _ => Option.none

/-- The available-labs `or`-chain, whose Python form ends in `or 0`
(kpi_official.py, lines 500–505). -/
def lab_available (data : String → PyVal) : Option ℚ :=
  pyOr (data "total_labs_num").asNum
    (pyOr (parse_numeric (data "total_labs"))
      (pyOr (parse_numeric (data "lab_count")) (some 0)))

/-- Evidence consulted for the available-labs numerator (line 508). -/
def lab_evidence (emap : String → PyEv) : PyEv :=
  pyOrEv (pyOrEv (emap "total_labs") (emap "lab_count")) .emptyDict

/-- The required-labs denominator (kpi_official.py, lines 525–539): the
`required_labs` fields are read with NO evidence check; when absent the
denominator is estimated as `max(5, student_count // 50)` or defaults
to 5. -/
def lab_required (data : String → PyVal) : ℚ :=
  match pyOr (data "required_labs_num").asNum
      (parse_numeric (data "required_labs")) with
  | some r => r
  | Option.none =>
    match pyOr (data "student_count_num").asNum
        (pyOr (data "total_students_num").asNum
          (pyOr (parse_numeric (data "total_students"))
            (parse_numeric (data "student_count")))) with
    | some s => if 0 < s then max 5 ((⌊s / 50⌋ : ℤ) : ℚ) else 5
    | Option.none => 5

/-- `OfficialKPIService.calculate_aicte_lab_compliance` (kpi_official.py,
lines 487–570), score only (trace dict and display rounding omitted). -/
def calculate_aicte_lab_compliance (data : String → PyVal)
    (emap : String → PyEv) : Option ℚ :=
  let al :=
    match lab_available data with
    | some v =>
        if 0 < v ∧ validate_evidence_required (some v) (lab_evidence emap) = false
        then Option.none else some v
    | Option.none => Option.none
  match al with
  | Option.none => Option.none
  | some v =>
    if v = 0 then Option.none
    else
      let required := lab_required data
      if required = 0 then Option.none
      else some (min (v / required * 100) 100)

/-- Counterexample to C5: the lab-compliance denominator is NOT
evidence-gated.  With 3 evidenced available labs and `required_labs =
10` present WITHOUT any evidence record, the code still divides by the
unevidenced denominator and returns 30 (were the unevidenced
denominator treated as absent, the estimate path would give
`min(3/5×100, 100) = 60`). -/
theorem lab_compliance_unevidenced_denominator :
    calculate_aicte_lab_compliance
      (fun k => if k = "total_labs_num" then .num 3
        else if k = "required_labs_num" then .num 10 else .none)
      (fun k => if k = "total_labs" then .ev "3 labs" "report.pdf"
        else .absent) = some 30 ∧
    (30 : ℚ) ≠ 60 := by
  constructor
  · have havail : lab_available
        (fun k => if k = "total_labs_num" then .num 3
          else if k = "required_labs_num" then .num 10 else .none) =
        some 3 := rfl
    have hreq : lab_required
        (fun k => if k = "total_labs_num" then .num 3
          else if k = "required_labs_num" then .num 10 else .none) = 10 := rfl
    simp [calculate_aicte_lab_compliance, havail, hreq, lab_evidence,
      validate_evidence_required, pyOrEv, PyEv.truthy]
    norm_num [min_def]
  · norm_num

/-- C5 as amended: in placement, numerator and denominator are both
evidence-gated, the result is capped at 100, and a zero denominator
yields unknown; in lab compliance the numerator is evidence-gated, the
result is capped at 100 and a zero denominator yields unknown, but the
`required_labs` denominator is used without any evidence check. -/
theorem ratio_percentage_spec :
    (∀ (data : String → PyVal) (emap : String → PyEv) (p e : ℚ),
      data "placement_rate_num" = .none → data "placement_percentage" = .none →
      data "placement_rate" = .none →
      data "students_placed_num" = .num p → data "students_eligible_num" = .num e →
      0 < p → 0 < e →
      ((validate_evidence_required (some p) (placed_evidence emap) = true →
        validate_evidence_required (some e) (eligible_evidence emap) = true →
        calculate_aicte_placement data emap = some (min (p / e * 100) 100)) ∧
       (validate_evidence_required (some p) (placed_evidence emap) = false →
        calculate_aicte_placement data emap = Option.none) ∧
       (validate_evidence_required (some e) (eligible_evidence emap) = false →
        calculate_aicte_placement data emap = Option.none))) ∧
    (∀ (data : String → PyVal) (emap : String → PyEv) (p : ℚ),
      data "placement_rate_num" = .none → data "placement_percentage" = .none →
      data "placement_rate" = .none →
      data "students_placed_num" = .num p → 0 < p →
      data "students_eligible_num" = .none → data "student_count_num" = .none →
      data "total_students_num" = .none → data "students_eligible" = .none →
      data "total_students" = .none → data "student_count" = .num 0 →
      calculate_aicte_placement data emap = Option.none) ∧
    (∀ (data : String → PyVal) (emap : String → PyEv) (v r : ℚ),
      data "total_labs_num" = .num v → 0 < v →
      data "required_labs_num" = .num r → r ≠ 0 →
      ((validate_evidence_required (some v) (lab_evidence emap) = true →
        calculate_aicte_lab_compliance data emap =
          some (min (v / r * 100) 100)) ∧
       (validate_evidence_required (some v) (lab_evidence emap) = false →
        calculate_aicte_lab_compliance data emap = Option.none))) ∧
    (∀ (data : String → PyVal) (emap : String → PyEv) (v : ℚ),
      data "total_labs_num" = .num v → 0 < v →
      validate_evidence_required (some v) (lab_evidence emap) = true →
      data "required_labs_num" = .none → data "required_labs" = .num 0 →
      calculate_aicte_lab_compliance data emap = Option.none) := by
  refine ⟨?_, ?_, ?_, ?_⟩
  · intro data emap p e h1 h2 h3 hp he hp0 he0
    have hrate : placement_rate_chain data = Option.none := by
      simp [placement_rate_chain, h1, h2, h3, parse_numeric, PyVal.asNum, pyOr]
    have hplaced : placed_chain data = some p := by
      simp [placed_chain, hp, PyVal.asNum, pyOr, hp0.ne']
    have helig : eligible_chain data = some e := by
      simp [eligible_chain, he, PyVal.asNum, pyOr, he0.ne']
    refine ⟨?_, ?_, ?_⟩
    · intro hev1 hev2
      simp [calculate_aicte_placement, hrate, hplaced, helig, hev1, hev2,
        he0.ne']
    · intro hev1
      simp [calculate_aicte_placement, hrate, hplaced, helig, hev1]
    · intro hev2
      simp [calculate_aicte_placement, hrate, hplaced, helig, hev2]
  · intro data emap p h1 h2 h3 hp hp0 k1 k2 k3 k4 k5 k6
    have hrate : placement_rate_chain data = Option.none := by
      simp [placement_rate_chain, h1, h2, h3, parse_numeric, PyVal.asNum, pyOr]
    have hplaced : placed_chain data = some p := by
      simp [placed_chain, hp, PyVal.asNum, pyOr, hp0.ne']
    have helig : eligible_chain data = some 0 := by
      simp [eligible_chain, k1, k2, k3, k4, k5, k6, parse_numeric,
        PyVal.asNum, pyOr]
    by_cases hevP : validate_evidence_required (some p)
        (placed_evidence emap) = true <;>
      by_cases hevE : validate_evidence_required (some 0)
          (eligible_evidence emap) = true <;>
        simp [calculate_aicte_placement, hrate, hplaced, helig, hevP, hevE]
  · intro data emap v r hv hv0 hr hr0
    have havail : lab_available data = some v := by
      simp [lab_available, hv, PyVal.asNum, pyOr, hv0.ne']
    have hreq : lab_required data = r := by
      simp [lab_required, hr, PyVal.asNum, pyOr, hr0]
    refine ⟨?_, ?_⟩
    · intro hev
      simp [calculate_aicte_lab_compliance, havail, hreq, hev, hv0.ne',
        hr0]
    · intro hev
      simp [calculate_aicte_lab_compliance, havail, hev, hv0]
  · intro data emap v hv hv0 hev hr1 hr2
    have havail : lab_available data = some v := by
      simp [lab_available, hv, PyVal.asNum, pyOr, hv0.ne']
    have hreq : lab_required data = 0 := by
      simp [lab_required, hr1, hr2, parse_numeric, PyVal.asNum, pyOr]
    simp [calculate_aicte_lab_compliance, havail, hreq, hev, hv0.ne']

/-- Witness for C5 (amended): 80 placed of 100 eligible, both
evidenced, gives 80; 3 evidenced labs with an (unevidenced) required
count of 10 gives 30. -/
theorem ratio_percentage_spec_witness :
    calculate_aicte_placement
      (fun k => if k = "students_placed_num" then .num 80
        else if k = "students_eligible_num" then .num 100 else .none)
      (fun k => if k = "students_placed" ∨ k = "students_eligible"
        then .ev "snippet" "doc.pdf" else .absent) = some 80 := by
  have h := ((ratio_percentage_spec.1
      (fun k => if k = "students_placed_num" then .num 80
        else if k = "students_eligible_num" then .num 100 else .none)
      (fun k => if k = "students_placed" ∨ k = "students_eligible"
        then .ev "snippet" "doc.pdf" else .absent)
      80 100 rfl rfl rfl rfl rfl (by norm_num) (by norm_num)).1)
      (by decide) (by decide)
  rw [h]
  norm_num

/-!
## NBA outcome attainment (C6)

`NBACalculationEngine.calculate_direct_po_attainment`
(services/nba_calculation_engine.py, lines 97–169) and
`NBACalculationEngine.calculate_final_po_attainment` (lines 200–244)
with `DEFAULT_DIRECT_WEIGHT = 0.8`, `DEFAULT_INDIRECT_WEIGHT = 0.2`
(lines 39–40).
-/

/-- One CO attainment record (`{co_id, attainment_percent, ...}`); the
course name and evidence id feed only the trace and are omitted. -/
structure CoAttainment where
  co_id : String
  attainment_percent : Option ℚ

/-- One CO→PO mapping record (`{co_id, mapping_level}`). -/
structure CoMapping where
  co_id : String
  mapping_level : ℚ

/-- The `co_lookup` dict of `calculate_direct_po_attainment` (lines
117–120): entries with a non-None attainment, later duplicates
overwriting earlier ones (Python dict assignment). -/
def co_lookup (cos : List CoAttainment) (cid : String) : Option ℚ :=
  cos.foldl
    (fun acc co =>
      match co.attainment_percent with
      | some a => if co.co_id = cid then some a else acc
      | Option.none => acc)
    Option.none

/-- The `valid_mappings` list (lines 123–133), as
`(mapping_level, attainment)` pairs. -/
def nba_valid_mappings (cos : List CoAttainment) (mappings : List CoMapping) :
    List (ℚ × ℚ) :=
  mappings.filterMap
    (fun m => (co_lookup cos m.co_id).map (fun a => (m.mapping_level, a)))

/-- `NBACalculationEngine.calculate_direct_po_attainment` (lines
97–169): `Σ(CO × Level) / Σ(Level)` over the valid mappings, `None`
when there are none or the level sum is zero (trace list and display
rounding omitted). -/
def calculate_direct_po_attainment (cos : List CoAttainment)
    (mappings : List CoMapping) : Option ℚ :=
  let valid := nba_valid_mappings cos mappings
  if valid = [] then Option.none
  else
    let denominator := (valid.map Prod.fst).sum
    let numerator := (valid.map (fun p => p.2 * p.1)).sum
    if denominator = 0 then Option.none else some (numerator / denominator)

/-- Which of the four branches of `calculate_final_po_attainment`
produced the result — the model of its `formula_used` trace string. -/
inductive AttainTrace where
  | insufficient
  | directOnly
  | indirectOnly
  | combined
deriving DecidableEq, Repr

/-- `NBACalculationEngine.calculate_final_po_attainment` (lines
200–244).  The weight arguments default through Python `or` to
0.8/0.2; returns `(value, trace)` (display rounding omitted). -/
def calculate_final_po_attainment (direct indirect : Option ℚ)
    (direct_weight indirect_weight : Option ℚ) : Option ℚ × AttainTrace :=
  let dw := (pyOr direct_weight (some (4/5))).getD (4/5)
  let iw := (pyOr indirect_weight (some (1/5))).getD (1/5)
  match direct, indirect with
  | Option.none, Option.none => (Option.none, .insufficient)
  | some d, Option.none => (some d, .directOnly)
  | Option.none, some i => (some i, .indirectOnly)
  | some d, some i => (some (d * dw + i * iw), .combined)

/-- C6: final attainment is `0.8×direct + 0.2×indirect` when both are
present, the one present value (with a trace noting the other absent)
when exactly one is, unknown when neither is; and direct attainment is
the mapping-strength-weighted mean of the CO attainments, unknown when
the weight sum is zero. -/
theorem po_attainment_spec :
    (∀ d i : ℚ,
      calculate_final_po_attainment (some d) (some i) Option.none Option.none =
        (some (4/5 * d + 1/5 * i), .combined)) ∧
    (∀ d : ℚ,
      calculate_final_po_attainment (some d) Option.none Option.none Option.none =
        (some d, .directOnly)) ∧
    (∀ i : ℚ,
      calculate_final_po_attainment Option.none (some i) Option.none Option.none =
        (some i, .indirectOnly)) ∧
    (calculate_final_po_attainment Option.none Option.none Option.none Option.none =
      (Option.none, .insufficient)) ∧
    (∀ (cos : List CoAttainment) (mappings : List CoMapping),
      ((nba_valid_mappings cos mappings).map Prod.fst).sum = 0 →
        calculate_direct_po_attainment cos mappings = Option.none) ∧
    (∀ (cos : List CoAttainment) (mappings : List CoMapping),
      ((nba_valid_mappings cos mappings).map Prod.fst).sum ≠ 0 →
        calculate_direct_po_attainment cos mappings =
          some (((nba_valid_mappings cos mappings).map (fun p => p.2 * p.1)).sum /
            ((nba_valid_mappings cos mappings).map Prod.fst).sum)) := by
  refine ⟨?_, ?_, ?_, rfl, ?_, ?_⟩
  · intro d i
    simp only [calculate_final_po_attainment, pyOr, Option.getD_some]
    rw [Prod.mk.injEq]
    constructor
    · rw [Option.some_inj]; ring
    · rfl
  · intro d; rfl
  · intro i; rfl
  · intro cos mappings hsum
    by_cases h : nba_valid_mappings cos mappings = []
    · simp [calculate_direct_po_attainment, h]
    · simp [calculate_direct_po_attainment, h, hsum]
  · intro cos mappings hsum
    have h : nba_valid_mappings cos mappings ≠ [] := by
      intro h
      rw [h] at hsum
      simp at hsum
    simp [calculate_direct_po_attainment, h, hsum]

/-- Witness for C6: direct 70 and indirect 90 combine to 74; CO
attainments {CO1: 80, CO2: 60} with levels {CO1: 3, CO2: 1} give
direct attainment 300/4 = 75. -/
theorem po_attainment_spec_witness :
    calculate_final_po_attainment (some 70) (some 90) Option.none Option.none =
      (some 74, .combined) ∧
    calculate_direct_po_attainment
      [⟨"CO1", some 80⟩, ⟨"CO2", some 60⟩]
      [⟨"CO1", 3⟩, ⟨"CO2", 1⟩] = some 75 := by
  constructor
  · have h := po_attainment_spec.1 70 90
    rw [h]
    norm_num
  · have hv : nba_valid_mappings
        [⟨"CO1", some 80⟩, ⟨"CO2", some 60⟩]
        [⟨"CO1", 3⟩, ⟨"CO2", 1⟩] = [(3, 80), (1, 60)] := rfl
    have hsum : ((nba_valid_mappings
        [⟨"CO1", some 80⟩, ⟨"CO2", some 60⟩]
        [⟨"CO1", 3⟩, ⟨"CO2", 1⟩]).map Prod.fst).sum ≠ 0 := by
      rw [hv]; norm_num
    have h := po_attainment_spec.2.2.2.2.2
      [⟨"CO1", some 80⟩, ⟨"CO2", some 60⟩]
      [⟨"CO1", 3⟩, ⟨"CO2", 1⟩] hsum
    rw [h, hv]
    norm_num

/-!
## AICTE infrastructure (C8)

`OfficialKPIService.calculate_aicte_infrastructure` (kpi_official.py,
lines 159–386): five sub-components, each normalized against a
per-student norm and capped at 100, combined with weights
0.40/0.25/0.15/0.10/0.10.  Only the area and classroom sub-components
are evidence-gated; library, digital and hostel are not.
-/

/-- The student-count `or`-chain of the infrastructure formula
(kpi_official.py, lines 178–185). -/
def infra_student_count (data : String → PyVal) : Option ℚ :=
  pyOr (data "total_students_num").asNum
    (pyOr (data "student_count_num").asNum
      (pyOr (data "total_intake_num").asNum
        (pyOr (parse_numeric (data "total_students"))
          (pyOr (parse_numeric (data "student_count"))
            (parse_numeric (data "total_intake"))))))

/-- Evidence consulted for the student count (line 188). -/
def infra_student_evidence (emap : String → PyEv) : PyEv :=
  pyOrEv (pyOrEv (pyOrEv (emap "total_students") (emap "student_count"))
    (emap "total_intake")) .emptyDict

/-- The built-up-area `or`-chain (lines 208–212). -/
def infra_area_chain (data : String → PyVal) : Option ℚ :=
  pyOr (data "built_up_area_sqm_num").asNum
    (pyOr (data "built_up_area_num").asNum
      (parse_numeric (data "built_up_area")))

/-- Evidence consulted for the built-up area (line 216). -/
def infra_area_evidence (emap : String → PyEv) : PyEv :=
  pyOrEv (pyOrEv (emap "built_up_area") (emap "built_up_area_sqm")) .emptyDict

/-- Area adequacy sub-score (lines 214–242): norm 4 sqm per student,
capped at 100, zero when the input is absent, non-positive, or fails
the evidence gate. -/
def areaScore (data : String → PyVal) (emap : String → PyEv) (s : ℚ) : ℚ :=
  match infra_area_chain data with
  | some v =>
    if 0 < v then
      if validate_evidence_required (some v) (infra_area_evidence emap) then
        if 0 < s * 4 then min 100 (v / (s * 4) * 100) else 0
      else 0
    else 0
  | Option.none => 0

/-- The classroom `or`-chain, ending in Python `or 0` (lines 245–249). -/
def infra_classroom_chain (data : String → PyVal) : Option ℚ :=
  pyOr (parse_numeric (data "total_classrooms"))
    (pyOr (parse_numeric (data "classrooms")) (some 0))

/-- Evidence consulted for the classrooms (line 253). -/
def infra_classroom_evidence (emap : String → PyEv) : PyEv :=
  pyOrEv (pyOrEv (emap "classrooms") (emap "total_classrooms")) .emptyDict

/-- Classroom adequacy sub-score (lines 251–279): norm
`ceil(students / 40)` classrooms, capped at 100, zero when absent or
unevidenced. -/
def classroomScore (data : String → PyVal) (emap : String → PyEv) (s : ℚ) : ℚ :=
  match infra_classroom_chain data with
  | some v =>
    if 0 < v then
      if validate_evidence_required (some v) (infra_classroom_evidence emap) then
        if 0 < ((⌈s / 40⌉ : ℤ) : ℚ) then min 100 (v / ((⌈s / 40⌉ : ℤ) : ℚ) * 100)
        else 0
      else 0
    else 0
  | Option.none => 0

/-- Library adequacy sub-score (lines 282–306): norm 0.5 sqm per
student, capped at 100.  NO evidence gate in the code. -/
def libraryScore (data : String → PyVal) (s : ℚ) : ℚ :=
  match pyOr (parse_numeric (data "library_area_sqm"))
      (pyOr (parse_numeric (data "library_area")) (some 0)) with
  | some v =>
    if 0 < v then
      if 0 < s * (1/2) then min 100 (v / (s * (1/2)) * 100) else 0
    else 0
  | Option.none => 0

/-- Digital availability sub-score (lines 309–344): 500 resources =
100%, capped; otherwise 50 for a truthy digital-library flag, else 0.
NO evidence gate in the code. -/
def digitalScore (data : String → PyVal) : ℚ :=
  match pyOr (parse_numeric (data "digital_library_resources"))
      (pyOr (parse_numeric (data "digital_resources")) (some 0)) with
  | some v =>
    if 0 < v then min 100 (v / 500 * 100)
    else
      if (data "digital_library_systems").truthy ||
          (data "has_digital_library").truthy then 50 else 0
  | Option.none =>
      if (data "digital_library_systems").truthy ||
          (data "has_digital_library").truthy then 50 else 0

/-- Hostel availability sub-score (lines 347–370): norm 40% of
students, capped at 100.  NO evidence gate in the code. -/
def hostelScore (data : String → PyVal) (s : ℚ) : ℚ :=
  match pyOr (parse_numeric (data "hostel_capacity")) (some 0) with
  | some v =>
    if 0 < v then
      if 0 < s * (2/5) then min 100 (v / (s * (2/5)) * 100) else 0
    else 0
  | Option.none => 0

/-- `OfficialKPIService.calculate_aicte_infrastructure` (kpi_official.py,
lines 159–386): `None` without an evidenced non-zero student count,
else the weighted sum of the five sub-scores (trace dict and display
rounding omitted). -/
def calculate_aicte_infrastructure (data : String → PyVal)
    (emap : String → PyEv) : Option ℚ :=
  let sc :=
    if validate_evidence_required (infra_student_count data)
        (infra_student_evidence emap)
    then infra_student_count data else Option.none
  match sc with
  | Option.none => Option.none
  | some s =>
    if s = 0 then Option.none
    else
      some (2/5 * areaScore data emap s + 1/4 * classroomScore data emap s +
        3/20 * libraryScore data s + 1/10 * digitalScore data +
        1/10 * hostelScore data s)

/-- A sub-score of the shape used above is always in [0, 100]. -/
theorem capped_nonneg_le_100 (x : ℚ) (hx : 0 ≤ x) :
    0 ≤ min 100 x ∧ min 100 x ≤ 100 :=
  ⟨le_min (by norm_num) hx, min_le_left _ _⟩

/-- Each of the five infrastructure sub-scores lies in [0, 100]. -/
theorem infra_sub_scores_bounded (data : String → PyVal)
    (emap : String → PyEv) (s : ℚ) :
    (0 ≤ areaScore data emap s ∧ areaScore data emap s ≤ 100) ∧
    (0 ≤ classroomScore data emap s ∧ classroomScore data emap s ≤ 100) ∧
    (0 ≤ libraryScore data s ∧ libraryScore data s ≤ 100) ∧
    (0 ≤ digitalScore data ∧ digitalScore data ≤ 100) ∧
    (0 ≤ hostelScore data s ∧ hostelScore data s ≤ 100) := by
  refine ⟨?_, ?_, ?_, ?_, ?_⟩
  · unfold areaScore
    rcases infra_area_chain data with _ | v
    · norm_num
    · dsimp only
      split_ifs with h1 h2 h3
      · exact capped_nonneg_le_100 _
          (by positivity)
      all_goals norm_num
  · unfold classroomScore
    rcases infra_classroom_chain data with _ | v
    · norm_num
    · dsimp only
      split_ifs with h1 h2 h3
      · exact capped_nonneg_le_100 _
          (by positivity)
      all_goals norm_num
  · unfold libraryScore
    rcases pyOr (parse_numeric (data "library_area_sqm"))
        (pyOr (parse_numeric (data "library_area")) (some 0)) with _ | v
    · norm_num
    · dsimp only
      split_ifs with h1 h2
      · exact capped_nonneg_le_100 _
          (by positivity)
      all_goals norm_num
  · unfold digitalScore
    rcases pyOr (parse_numeric (data "digital_library_resources"))
        (pyOr (parse_numeric (data "digital_resources")) (some 0)) with _ | v
    · dsimp only
      split_ifs <;> norm_num
    · dsimp only
      split_ifs with h1
      · exact capped_nonneg_le_100 _
          (by positivity)
      all_goals norm_num
  · unfold hostelScore
    rcases pyOr (parse_numeric (data "hostel_capacity")) (some 0) with _ | v
    · norm_num
    · dsimp only
      split_ifs with h1 h2
      · exact capped_nonneg_le_100 _
          (by positivity)
      all_goals norm_num

/-- C8 as amended: with an evidenced non-zero student count the score
is the 0.40/0.25/0.15/0.10/0.10 weighted sum of the five sub-scores;
each sub-score is capped at 100 (indeed lies in [0, 100]) before
weighting, so the total always lies in [0, 100]; a sub-component with
no input at all contributes 0, and the area and classroom
sub-components also contribute 0 when their input fails the evidence
gate — but the library, digital and hostel sub-components are not
evidence-gated. -/
theorem infrastructure_spec :
    (∀ (data : String → PyVal) (emap : String → PyEv) (s : ℚ),
      infra_student_count data = some s → s ≠ 0 →
      validate_evidence_required (some s) (infra_student_evidence emap) = true →
      calculate_aicte_infrastructure data emap =
        some (2/5 * areaScore data emap s + 1/4 * classroomScore data emap s +
          3/20 * libraryScore data s + 1/10 * digitalScore data +
          1/10 * hostelScore data s)) ∧
    (∀ (data : String → PyVal) (emap : String → PyEv) (t : ℚ),
      calculate_aicte_infrastructure data emap = some t →
      0 ≤ t ∧ t ≤ 100) ∧
    (∀ (data : String → PyVal) (emap : String → PyEv) (s : ℚ),
      validate_evidence_required (infra_area_chain data)
        (infra_area_evidence emap) = false →
      areaScore data emap s = 0) ∧
    (∀ (data : String → PyVal) (emap : String → PyEv) (s : ℚ),
      validate_evidence_required (infra_classroom_chain data)
        (infra_classroom_evidence emap) = false →
      classroomScore data emap s = 0) ∧
    (∀ (data : String → PyVal) (s : ℚ),
      data "library_area_sqm" = .none → data "library_area" = .none →
      libraryScore data s = 0) ∧
    (∀ (data : String → PyVal) (s : ℚ),
      data "hostel_capacity" = .none → hostelScore data s = 0) := by
  have hmain : ∀ (data : String → PyVal) (emap : String → PyEv) (s : ℚ),
      infra_student_count data = some s → s ≠ 0 →
      validate_evidence_required (some s) (infra_student_evidence emap) = true →
      calculate_aicte_infrastructure data emap =
        some (2/5 * areaScore data emap s + 1/4 * classroomScore data emap s +
          3/20 * libraryScore data s + 1/10 * digitalScore data +
          1/10 * hostelScore data s) := by
    intro data emap s hs hs0 hev
    simp [calculate_aicte_infrastructure, hs, hev, hs0]
  refine ⟨hmain, ?_, ?_, ?_, ?_, ?_⟩
  · intro data emap t ht
    have hb := infra_sub_scores_bounded data emap
    unfold calculate_aicte_infrastructure at ht
    rcases hcase : (if validate_evidence_required (infra_student_count data)
        (infra_student_evidence emap)
      then infra_student_count data else Option.none) with _ | s
    · rw [hcase] at ht
      simp at ht
    · rw [hcase] at ht
      by_cases hz : s = 0
      · simp [hz] at ht
      · simp only [hz, if_neg, ite_false, Option.some_inj] at ht
        obtain ⟨⟨a0, a1⟩, ⟨c0, c1⟩, ⟨l0, l1⟩, ⟨d0, d1⟩, ⟨h0, h1⟩⟩ := hb s
        constructor <;> [nlinarith; nlinarith]
  · intro data emap s hev
    unfold areaScore
    rcases hc : infra_area_chain data with _ | v
    · rfl
    · rw [hc] at hev
      dsimp only
      rw [hev]
      simp
  · intro data emap s hev
    unfold classroomScore
    rcases hc : infra_classroom_chain data with _ | v
    · rfl
    · rw [hc] at hev
      dsimp only
      rw [hev]
      simp
  · intro data s h1 h2
    unfold libraryScore
    rw [h1, h2]
    rfl
  · intro data s h
    unfold hostelScore
    rw [h]
    rfl

/-- Counterexample to C8's evidence clause: with an evidenced student
count of 100 and a library area of 300 sqm present WITHOUT any
evidence record (and no other input), the library sub-component still
contributes its full capped score: the total is 0.15 × 100 = 15, not
the 0 that "a sub-component with no evidenced input contributes 0"
would give. -/
theorem infrastructure_unevidenced_library :
    calculate_aicte_infrastructure
      (fun k => if k = "total_students_num" then .num 100
        else if k = "library_area_sqm" then .num 300 else .none)
      (fun k => if k = "total_students" then .ev "1500 students" "aicte.pdf"
        else .absent) = some 15 ∧
    (15 : ℚ) ≠ 0 := by
  constructor
  · have hlib : libraryScore
        (fun k => if k = "total_students_num" then .num 100
          else if k = "library_area_sqm" then .num 300 else .none) 100 = 100 := by
      simp [libraryScore, parse_numeric, pyOr]
      norm_num [min_def]
    have harea : areaScore
        (fun k => if k = "total_students_num" then .num 100
          else if k = "library_area_sqm" then .num 300 else .none)
        (fun k => if k = "total_students" then .ev "1500 students" "aicte.pdf"
          else .absent) 100 = 0 := rfl
    have hcls : classroomScore
        (fun k => if k = "total_students_num" then .num 100
          else if k = "library_area_sqm" then .num 300 else .none)
        (fun k => if k = "total_students" then .ev "1500 students" "aicte.pdf"
          else .absent) 100 = 0 := rfl
    have hdig : digitalScore
        (fun k => if k = "total_students_num" then .num 100
          else if k = "library_area_sqm" then .num 300 else .none) = 0 := rfl
    have hhos : hostelScore
        (fun k => if k = "total_students_num" then .num 100
          else if k = "library_area_sqm" then .num 300 else .none) 100 = 0 := rfl
    have hsc : infra_student_count
        (fun k => if k = "total_students_num" then .num 100
          else if k = "library_area_sqm" then .num 300 else .none) =
        some 100 := rfl
    simp [calculate_aicte_infrastructure, hsc, hlib, harea, hcls, hdig, hhos,
      infra_student_evidence, validate_evidence_required, pyOrEv, PyEv.truthy]
    norm_num
  · norm_num

/-- Witness for C8 (amended): a fully evidenced input — 100 students,
500 sqm area, 3 classrooms, 60 sqm library, 600 digital resources, 50
hostel places — caps every sub-component at 100 and totals exactly
100, inside [0, 100]. -/
theorem infrastructure_spec_witness :
    calculate_aicte_infrastructure
      (fun k => if k = "total_students_num" then .num 100
        else if k = "built_up_area_sqm_num" then .num 500
        else if k = "total_classrooms" then .num 3
        else if k = "library_area_sqm" then .num 60
        else if k = "digital_library_resources" then .num 600
        else if k = "hostel_capacity" then .num 50 else .none)
      (fun _ => .ev "snippet" "doc.pdf") = some 100 ∧
    (0 ≤ (100 : ℚ) ∧ (100 : ℚ) ≤ 100) := by
  refine ⟨?_, by norm_num⟩
  have h := infrastructure_spec.1
    (fun k => if k = "total_students_num" then .num 100
      else if k = "built_up_area_sqm_num" then .num 500
      else if k = "total_classrooms" then .num 3
      else if k = "library_area_sqm" then .num 60
      else if k = "digital_library_resources" then .num 600
      else if k = "hostel_capacity" then .num 50 else .none)
    (fun _ => .ev "snippet" "doc.pdf") 100 rfl (by norm_num) rfl
  rw [h]
  have ha : areaScore
      (fun k => if k = "total_students_num" then .num 100
        else if k = "built_up_area_sqm_num" then .num 500
        else if k = "total_classrooms" then .num 3
        else if k = "library_area_sqm" then .num 60
        else if k = "digital_library_resources" then .num 600
        else if k = "hostel_capacity" then .num 50 else .none)
      (fun _ => .ev "snippet" "doc.pdf") 100 = 100 := by
    simp [areaScore, infra_area_chain, infra_area_evidence, parse_numeric,
      pyOr, pyOrEv, PyVal.asNum, PyEv.truthy, validate_evidence_required]
    norm_num [min_def]
  have hc : classroomScore
      (fun k => if k = "total_students_num" then .num 100
        else if k = "built_up_area_sqm_num" then .num 500
        else if k = "total_classrooms" then .num 3
        else if k = "library_area_sqm" then .num 60
        else if k = "digital_library_resources" then .num 600
        else if k = "hostel_capacity" then .num 50 else .none)
      (fun _ => .ev "snippet" "doc.pdf") 100 = 100 := by
    have h3 : ⌈(5:ℚ) / 2⌉ = (3:ℤ) := by
      rw [Int.ceil_eq_iff]
      norm_num
    simp [classroomScore, infra_classroom_chain, infra_classroom_evidence,
      parse_numeric, pyOr, pyOrEv, PyVal.asNum, PyEv.truthy,
      validate_evidence_required]
    norm_num [min_def, h3]
  have hl : libraryScore
      (fun k => if k = "total_students_num" then .num 100
        else if k = "built_up_area_sqm_num" then .num 500
        else if k = "total_classrooms" then .num 3
        else if k = "library_area_sqm" then .num 60
        else if k = "digital_library_resources" then .num 600
        else if k = "hostel_capacity" then .num 50 else .none) 100 = 100 := by
    simp [libraryScore, parse_numeric, pyOr]
    norm_num [min_def]
  have hd : digitalScore
      (fun k => if k = "total_students_num" then .num 100
        else if k = "built_up_area_sqm_num" then .num 500
        else if k = "total_classrooms" then .num 3
        else if k = "library_area_sqm" then .num 60
        else if k = "digital_library_resources" then .num 600
        else if k = "hostel_capacity" then .num 50 else .none) = 100 := by
    simp [digitalScore, parse_numeric, pyOr]
    norm_num [min_def]
  have hh : hostelScore
      (fun k => if k = "total_students_num" then .num 100
        else if k = "built_up_area_sqm_num" then .num 500
        else if k = "total_classrooms" then .num 3
        else if k = "library_area_sqm" then .num 60
        else if k = "digital_library_resources" then .num 600
        else if k = "hostel_capacity" then .num 50 else .none) 100 = 100 := by
    simp [hostelScore, parse_numeric, pyOr]
    norm_num [min_def]
  rw [ha, hc, hl, hd, hh]
  norm_num

/-!
## Batch invalidation (C9)

Two divergent implementations exist (the spec's §9 flags this):
* `ProductionGuard.mark_batch_invalid_if_needed`
  (utils/production_guard.py, lines 22–69), taking the computed
  `kpi_results` and `sufficiency_result`; it invalidates on a missing
  (None) overall score or a zero/missing completeness indicator, and
  re-marks a previously invalid batch valid when no reason holds — but
  it does NOT invalidate on an overall score of exactly 0.
* `ProductionGuard.mark_batch_invalid_if_needed`
  (services/production_guard.py, lines 161–188), reading the batch's
  stored fields; it treats 0 as invalid too, but NEVER re-marks a
  batch valid.
The batch state is reduced to the only field either mutates: the
`is_invalid` flag (an int, `1` = invalid); each model returns the new
flag and the Python boolean result.
-/

/-- The `kpi_results` dict as the utils guard reads it: the
`overall_score` key may be absent (`Option.none` outside) or present
with a possibly-None value. -/
structure KpiDict where
  overall_score : Option (Option ℚ)

/-- The `sufficiency_result` dict: `percentage` and `present_count`
keys, each possibly absent or None-valued. -/
structure SuffDict where
  percentage : Option (Option ℚ)
  present_count : Option (Option ℚ)

/-- `kpi_results.get("overall_score")` (utils/production_guard.py,
line 42): `None` when the key is absent. -/
def kpiOverall (k : KpiDict) : Option ℚ :=
  match k.overall_score with
  | Option.none => Option.none
  | some v => v

/-- `sufficiency_result.get("percentage", 0)` (line 50): defaults to 0
when the key is absent; a stored `None` stays `None` (and then the
Python `== 0` test is false). -/
def suffPercentage (s : SuffDict) : Option ℚ :=
  match s.percentage with
  | Option.none => some 0
  | some v => v

/-- `sufficiency_result.get("present_count", 0)` (line 51). -/
def suffPresentCount (s : SuffDict) : Option ℚ :=
  match s.present_count with
  | Option.none => some 0
  | some v => v

/-- The `reasons`-nonempty test of the utils guard (lines 38–55): a
falsy `kpi_results` or a None overall score; a falsy
`sufficiency_result` or a zero percentage or present count. -/
def utils_reasons (kpi : Option KpiDict) (suff : Option SuffDict) : Bool :=
  (match kpi with
   | Option.none => true
   | some k => decide (kpiOverall k = Option.none)) ||
  (match suff with
   | Option.none => true
   | some s => decide (suffPercentage s = some 0) ||
       decide (suffPresentCount s = some 0))

/-- `ProductionGuard.mark_batch_invalid_if_needed`
(utils/production_guard.py, lines 22–69): returns the new `is_invalid`
flag and the Python return value. -/
def utils_mark_batch_invalid_if_needed (is_invalid : ℤ)
    (kpi : Option KpiDict) (suff : Option SuffDict) : ℤ × Bool :=
  if utils_reasons kpi suff then (1, true)
  else if is_invalid = 1 then (0, false)
  else (is_invalid, false)

/-- `ProductionGuard.mark_batch_invalid_if_needed`
(services/production_guard.py, lines 161–188): reads the batch's
`overall_score` and `sufficiency` fields; never resets the flag. -/
def services_mark_batch_invalid_if_needed (is_invalid : ℤ)
    (overall_score : Option ℚ) (sufficiency : Option ℚ) : ℤ × Bool :=
  if overall_score = Option.none ∨ overall_score = some 0 then
    (1, !decide (is_invalid = 1))
  else if sufficiency = some 0 then (1, !decide (is_invalid = 1))
  else (is_invalid, false)

/-- Counterexample to C9: (a) the utils guard, given an overall score
of exactly 0 (with healthy sufficiency), re-marks a previously invalid
batch VALID — the claim demands invalid for an unknown/zero overall;
(b) the services guard, given a previously invalid batch whose
conditions now all pass, leaves it INVALID — the claim demands it be
set back to valid. -/
theorem mark_batch_invalid_counterexample :
    utils_mark_batch_invalid_if_needed 1
      (some ⟨some (some 0)⟩) (some ⟨some (some 50), some (some 3)⟩) =
      (0, false) ∧
    services_mark_batch_invalid_if_needed 1 (some 80) (some 50) =
      (1, false) ∧
    (0 : ℤ) ≠ 1 := by
  refine ⟨by decide, by decide, by decide⟩

/-- C9 as amended: after the utils guard runs on a batch whose flag is
0 or 1, the flag is invalid (= 1) iff a reason holds — the KPI results
are missing or their overall score is None, or the sufficiency result
is missing or its percentage or present count is zero; otherwise the
batch is (re)marked valid (flag 0).  The call is idempotent on the
flag and returns/mutates nothing but that flag.  The services variant
additionally invalidates on an overall of exactly 0 but never resets
the flag of a previously invalid batch. -/
theorem mark_batch_invalid_spec :
    (∀ (inv : ℤ) (kpi : Option KpiDict) (suff : Option SuffDict),
      inv = 0 ∨ inv = 1 →
      (((utils_mark_batch_invalid_if_needed inv kpi suff).1 = 1 ↔
          utils_reasons kpi suff = true) ∧
       (utils_reasons kpi suff = false →
          (utils_mark_batch_invalid_if_needed inv kpi suff).1 = 0))) ∧
    (∀ (kpi : Option KpiDict) (suff : Option SuffDict),
      utils_reasons kpi suff = true ↔
        ((kpi = Option.none ∨ ∃ k, kpi = some k ∧ kpiOverall k = Option.none) ∨
         (suff = Option.none ∨ ∃ s, suff = some s ∧
           (suffPercentage s = some 0 ∨ suffPresentCount s = some 0)))) ∧
    (∀ (inv : ℤ) (kpi : Option KpiDict) (suff : Option SuffDict),
      (utils_mark_batch_invalid_if_needed
        (utils_mark_batch_invalid_if_needed inv kpi suff).1 kpi suff).1 =
      (utils_mark_batch_invalid_if_needed inv kpi suff).1) ∧
    (∀ (inv : ℤ) (os suf : Option ℚ),
      (os = Option.none ∨ os = some 0 →
        (services_mark_batch_invalid_if_needed inv os suf).1 = 1) ∧
      (¬(os = Option.none ∨ os = some 0) → suf ≠ some 0 →
        (services_mark_batch_invalid_if_needed inv os suf).1 = inv)) := by
  refine ⟨?_, ?_, ?_, ?_⟩
  · intro inv kpi suff hinv
    by_cases hr : utils_reasons kpi suff = true
    · constructor
      · simp [utils_mark_batch_invalid_if_needed, hr]
      · intro hf; rw [hf] at hr; exact absurd hr (by simp)
    · have hr' : utils_reasons kpi suff = false := by
        simpa using hr
      constructor
      · rcases hinv with h0 | h1
        · simp [utils_mark_batch_invalid_if_needed, hr', h0]
        · simp [utils_mark_batch_invalid_if_needed, hr', h1]
      · intro _
        rcases hinv with h0 | h1
        · simp [utils_mark_batch_invalid_if_needed, hr', h0]
        · simp [utils_mark_batch_invalid_if_needed, hr', h1]
  · intro kpi suff
    rcases kpi with _ | k <;> rcases suff with _ | s <;>
      · simp [utils_reasons]
        try tauto
  · intro inv kpi suff
    by_cases hr : utils_reasons kpi suff = true
    · simp [utils_mark_batch_invalid_if_needed, hr]
    · have hr' : utils_reasons kpi suff = false := by simpa using hr
      by_cases h1 : inv = 1 <;>
        simp [utils_mark_batch_invalid_if_needed, hr', h1]
  · intro inv os suf
    constructor
    · intro h
      simp [services_mark_batch_invalid_if_needed, h]
    · intro h hs
      simp [services_mark_batch_invalid_if_needed, h, hs]

/-- Witness for C9 (amended): a healthy batch (overall 85, sufficiency
80%, 5 blocks) previously flagged invalid is re-marked valid by the
utils guard. -/
theorem mark_batch_invalid_spec_witness :
    (utils_mark_batch_invalid_if_needed 1
      (some ⟨some (some 85)⟩)
      (some ⟨some (some 80), some (some 5)⟩)).1 = 0 :=
  (mark_batch_invalid_spec.1 1
    (some ⟨some (some 85)⟩)
    (some ⟨some (some 80), some (some 5)⟩)
    (Or.inr rfl)).2 (by decide)

/-!
## Fact aggregation (C7)

`KPIService._aggregate_block_data` (services/kpi.py, lines 244–331).
Python dicts are modelled as insertion-ordered association lists with
in-place update (`dictSet`); each block is a flag plus its
`extracted_data` dict; the aggregator folds a first pass (merge
pre-parsed `*_num` fields by maximum) and a second pass (raw fields,
aliasing, numeric preference) over every valid block.
-/

/-- A Python dict as an insertion-ordered association list. -/
abbrev Dict := List (String × PyVal)

/-- `d.get(k)`: the stored value, `None` when the key is absent. -/
def dictGet (d : Dict) (k : String) : PyVal :=
  match d with
  | [] => .none
  | (k', v) :: rest => if k' = k then v else dictGet rest k

/-- `k in d`. -/
def dictMem (d : Dict) (k : String) : Bool :=
  match d with
  | [] => false
  | (k', _) :: rest => if k' = k then true else dictMem rest k

/-- `d[k] = v`: update in place, else append (Python dict order). -/
def dictSet (d : Dict) (k : String) (v : PyVal) : Dict :=
  match d with
  | [] => [(k, v)]
  | (k', v') :: rest =>
      if k' = k then (k, v) :: rest else (k', v') :: dictSet rest k v

/-- Whether a stored value is numeric (`isinstance(·, (int, float))`). -/
def PyVal.isNumV : PyVal → Bool
  | .num _ => true
  | _ => false

/-- One extraction block: its `is_invalid` flag and `extracted_data`. -/
structure Block where
  is_invalid : Bool
  extracted_data : Dict

/-- The area aliases special-cased in the first pass (kpi.py, line 268). -/
def areaNumKeys : List String :=
  ["built_up_area_num", "area_num", "total_area_num", "campus_area_num",
   "building_area_num"]

/-- `s.endswith(suffix)` (Python), as a kernel-reducible list check
(the library `String.endsWith` is well-founded-recursive and does not
evaluate inside `decide`). -/
def strEndsWith (s suffix : String) : Bool :=
  decide (s.data.reverse.take suffix.data.length = suffix.data.reverse)

/-- First pass over one entry (kpi.py, lines 256–273): a numeric
`*_num` field is stored, merged by `max` with an existing numeric
value; area `*_num` aliases also feed `built_up_area_sqm_num`. -/
def firstPassStep (agg : Dict) (entry : String × PyVal) : Dict :=
  if strEndsWith entry.1 "_num" then
    match entry.2 with
    | .num q =>
      let agg1 :=
        if dictMem agg entry.1 then
          match dictGet agg entry.1 with
          | .num q0 => dictSet agg entry.1 (.num (max q0 q))
          | _ => dictSet agg entry.1 (.num q)
        else dictSet agg entry.1 (.num q)
      if entry.1 ∈ areaNumKeys then
        if dictMem agg1 "built_up_area_sqm_num" then
          match dictGet agg1 "built_up_area_sqm_num" with
          | .num q0 => dictSet agg1 "built_up_area_sqm_num" (.num (max q0 q))
          | _ => dictSet agg1 "built_up_area_sqm_num" (.num q)
        else dictSet agg1 "built_up_area_sqm_num" (.num q)
      else agg1
    | _ => agg
  else agg

/-- Second pass over one entry (kpi.py, lines 276–326): skip `*_num`
and empty values; alias `total_faculty` → `faculty_count` and
`total_intake`/`admitted_students` → `student_count`; prefer the
block's pre-parsed `*_num` counterpart when it exists, merging by
`max` only when the stored aggregate is already numeric; otherwise
store the raw value (with a parsed `*_num` shadow). -/
def secondPassStep (bd : Dict) (agg : Dict) (entry : String × PyVal) : Dict :=
  if strEndsWith entry.1 "_num" then agg
  else if entry.2 = .none ∨ entry.2 = .str "" ∨ entry.2 = .str "null" ∨
      entry.2 = .str "None" then agg
  else
    let target :=
      if entry.1 = "total_faculty" then "faculty_count"
      else if (entry.1 = "total_intake" ∨ entry.1 = "admitted_students") ∧
          ¬dictMem agg "student_count" then "student_count"
      else entry.1
    let num_key := entry.1 ++ "_num"
    if dictMem bd num_key ∧ dictGet bd num_key ≠ .none then
      if ¬dictMem agg target ∨ ¬(dictGet agg target).isNumV then
        dictSet (dictSet agg target (dictGet bd num_key)) (target ++ "_num")
          (dictGet bd num_key)
      else
        match dictGet agg target, dictGet bd num_key with
        | .num c, .num n =>
            dictSet (dictSet agg target (.num (max c n))) (target ++ "_num")
              (.num (max c n))
        | _, _ => agg
    else
      if dictMem agg target then
        let current_val := (parse_numeric (dictGet agg target)).getD 0
        let new_val := (parse_numeric entry.2).getD 0
        if 0 < current_val ∨ 0 < new_val then
          dictSet (dictSet agg target (.num (max current_val new_val)))
            (target ++ "_num") (.num (max current_val new_val))
        else
          if entry.2.truthy then dictSet agg target entry.2 else agg
      else
        let agg1 := dictSet agg target entry.2
        match parse_numeric entry.2 with
        | some p => dictSet agg1 (target ++ "_num") (.num p)
        | Option.none => agg1

/-- Both passes of `_aggregate_block_data` over one block. -/
def processBlock (agg : Dict) (b : Block) : Dict :=
  b.extracted_data.foldl (secondPassStep b.extracted_data)
    (b.extracted_data.foldl firstPassStep agg)

/-- `KPIService._aggregate_block_data` (kpi.py, lines 244–331):
fold over the blocks, skipping those flagged invalid. -/
def aggregate_block_data (blocks : List Block) : Dict :=
  blocks.foldl
    (fun agg b => if b.is_invalid then agg else processBlock agg b) []

/-- Counterexample to C7's maximum policy: block 1 carries the
pre-parsed numeric `faculty_count_num = 9`; block 2 carries the alias
`total_faculty = "2"` with its pre-parsed `total_faculty_num = 2`.
The canonical field `faculty_count_num` thus carries the numeric
values 9 and 2 across blocks, but the aggregate ends at 2, not
`max 9 2 = 9`: the second pass overwrites the stored canonical `_num`
because the canonical key `faculty_count` itself was absent. -/
theorem aggregate_max_counterexample :
    dictGet
      (aggregate_block_data
        [⟨false, [("faculty_count_num", .num 9)]⟩,
         ⟨false, [("total_faculty", .str "2"), ("total_faculty_num", .num 2)]⟩])
      "faculty_count_num" = .num 2 ∧
    max (9 : ℚ) 2 = 9 ∧ (2 : ℚ) ≠ 9 := by
  refine ⟨by decide, ?_, by norm_num⟩
  rw [max_eq_left]
  norm_num

/-- `dictGet` after `dictSet`: the set key reads back the new value,
any other key is untouched. -/
theorem dictGet_dictSet (d : Dict) (k : String) (v : PyVal) (k' : String) :
    dictGet (dictSet d k v) k' = if k = k' then v else dictGet d k' := by
  induction d with
  | nil => simp [dictSet, dictGet]
  | cons hd tl ih =>
    obtain ⟨k0, v0⟩ := hd
    by_cases h0 : k0 = k
    · subst h0
      by_cases h1 : k0 = k'
      · subst h1
        simp [dictSet, dictGet]
      · simp [dictSet, dictGet, h1]
    · by_cases h1 : k0 = k'
      · subst h1
        have : ¬ k = k0 := fun h => h0 h.symm
        simp [dictSet, dictGet, h0, this]
      · simp [dictSet, dictGet, h0, h1, ih]

/-- `dictMem` after `dictSet`. -/
theorem dictMem_dictSet (d : Dict) (k : String) (v : PyVal) (k' : String) :
    dictMem (dictSet d k v) k' = if k = k' then true else dictMem d k' := by
  induction d with
  | nil => simp [dictSet, dictMem]
  | cons hd tl ih =>
    obtain ⟨k0, v0⟩ := hd
    by_cases h0 : k0 = k
    · subst h0
      by_cases h1 : k0 = k'
      · subst h1
        simp [dictSet, dictMem]
      · simp [dictSet, dictMem, h1]
    · by_cases h1 : k0 = k'
      · subst h1
        have : ¬ k = k0 := fun h => h0 h.symm
        simp [dictSet, dictMem, h0, this]
      · simp [dictSet, dictMem, h0, h1, ih]

/-- Every element of `q :: qs` is bounded by the running `foldl max`. -/
theorem le_foldl_max (q : ℚ) (qs : List ℚ) :
    ∀ r ∈ q :: qs, r ≤ qs.foldl max q := by
  induction qs generalizing q with
  | nil => intro r hr; simp at hr; simp [hr]
  | cons p ps ih =>
    intro r hr
    rcases List.mem_cons.mp hr with h | h
    · subst h
      calc r ≤ max r p := le_max_left _ _
        _ ≤ ps.foldl max (max r p) := (ih (max r p) _ (List.mem_cons_self _ _))
        _ = (p :: ps).foldl max r := by simp [List.foldl_cons]
    · rcases List.mem_cons.mp h with h' | h'
      · subst h'
        calc r ≤ max q r := le_max_right _ _
          _ ≤ ps.foldl max (max q r) := (ih (max q r) _ (List.mem_cons_self _ _))
          _ = (r :: ps).foldl max q := by simp [List.foldl_cons]
      · have := ih (max q p) r (List.mem_cons_of_mem _ h')
        simpa [List.foldl_cons] using this

/-- The running `foldl max` is one of the elements. -/
theorem foldl_max_mem (q : ℚ) (qs : List ℚ) :
    qs.foldl max q ∈ q :: qs := by
  induction qs generalizing q with
  | nil => simp
  | cons p ps ih =>
    have h := ih (max q p)
    rcases List.mem_cons.mp h with h' | h'
    · rcases max_choice q p with hm | hm
      · rw [List.foldl_cons]
        rw [h', hm]
        exact List.mem_cons_self _ _
      · rw [List.foldl_cons]
        rw [h', hm]
        exact List.mem_cons_of_mem _ (List.mem_cons_self _ _)
    · rw [List.foldl_cons]
      exact List.mem_cons_of_mem _ (List.mem_cons_of_mem _ h')

/-- A single-field block carrying only the pre-parsed `x_num = q`. -/
def mkNumBlock (q : ℚ) : Block := ⟨false, [("x_num", .num q)]⟩

/-- Processing a `mkNumBlock` against an aggregate that already holds
`x_num = m` merges by maximum (the first-pass `_num` merge). -/
theorem processBlock_mkNumBlock (m q : ℚ) :
    processBlock [("x_num", .num m)] (mkNumBlock q) =
      [("x_num", .num (max m q))] := rfl

/-- Folding `mkNumBlock`s keeps the running maximum in `x_num`. -/
theorem foldl_mkNumBlock (qs : List ℚ) (m : ℚ) :
    List.foldl
      (fun agg b => if b.is_invalid then agg else processBlock agg b)
      [("x_num", .num m)] (qs.map mkNumBlock) =
      [("x_num", .num (qs.foldl max m))] := by
  induction qs generalizing m with
  | nil => rfl
  | cons p ps ih =>
    rw [List.map_cons, List.foldl_cons, List.foldl_cons]
    have h1 : (if (mkNumBlock p).is_invalid then [("x_num", PyVal.num m)]
        else processBlock [("x_num", PyVal.num m)] (mkNumBlock p)) =
        [("x_num", .num (max m p))] := by
      rw [if_neg (by simp [mkNumBlock])]
      exact processBlock_mkNumBlock m p
    rw [h1, ih]

/-- C7 as amended: blocks flagged invalid contribute nothing to the
aggregate; within a block carrying a field in both raw and pre-parsed
numeric form, the numeric form is the one kept (the stored value is
numeric, and on a fresh aggregate it is exactly the pre-parsed value);
and repeated pre-parsed `*_num` values across blocks merge to their
maximum through the first-pass numeric merge.  (The maximum policy
does NOT hold on the second-pass path when the canonical key's stored
aggregate is absent or non-numeric — see the counterexample.) -/
theorem aggregate_block_data_spec :
    (∀ (pre post : List Block) (b : Block), b.is_invalid = true →
      aggregate_block_data (pre ++ b :: post) =
        aggregate_block_data (pre ++ post)) ∧
    (∀ (agg : Dict) (raw : PyVal) (q : ℚ),
      raw ≠ .none → raw ≠ .str "" → raw ≠ .str "null" → raw ≠ .str "None" →
      ((dictGet (processBlock agg ⟨false, [("x", raw), ("x_num", .num q)]⟩)
          "x").isNumV = true ∧
        dictGet (processBlock [] ⟨false, [("x", raw), ("x_num", .num q)]⟩)
          "x" = .num q)) ∧
    (∀ (q : ℚ) (qs : List ℚ),
      dictGet (aggregate_block_data ((q :: qs).map mkNumBlock)) "x_num" =
        .num (qs.foldl max q) ∧
      (∀ r ∈ q :: qs, r ≤ qs.foldl max q) ∧
      qs.foldl max q ∈ q :: qs) := by
  refine ⟨?_, ?_, ?_⟩
  · intro pre post b hb
    unfold aggregate_block_data
    rw [List.foldl_append, List.foldl_append, List.foldl_cons, if_pos hb]
  · intro agg raw q h1 h2 h3 h4
    constructor
    · have hagg1 : (Block.mk false [("x", raw), ("x_num", .num q)]).extracted_data.foldl
          firstPassStep agg = firstPassStep agg ("x_num", .num q) := by
        simp [List.foldl_cons, List.foldl_nil, firstPassStep, strEndsWith]
      have hx_mem : ∀ w : ℚ,
          dictMem (dictSet agg "x_num" (.num w)) "x" = dictMem agg "x" := by
        intro w
        rw [dictMem_dictSet]
        simp
      have hx_get : ∀ w : ℚ,
          dictGet (dictSet agg "x_num" (.num w)) "x" = dictGet agg "x" := by
        intro w
        rw [dictGet_dictSet]
        simp
      have hshape : ∃ w : ℚ, firstPassStep agg ("x_num", .num q) =
          dictSet agg "x_num" (.num w) := by
        simp only [firstPassStep, strEndsWith]
        norm_num [areaNumKeys]
        by_cases hm : dictMem agg "x_num" = true
        · rcases hg : dictGet agg "x_num" with _ | w | s <;>
            simp [hm, hg] <;> exact ⟨_, rfl⟩
        · have hm' : dictMem agg "x_num" = false := by simpa using hm
          simp [hm']
          exact ⟨q, rfl⟩
      obtain ⟨w, hw⟩ := hshape
      show (dictGet (List.foldl
          (secondPassStep (Block.mk false [("x", raw), ("x_num", .num q)]).extracted_data)
          ((Block.mk false [("x", raw), ("x_num", .num q)]).extracted_data.foldl
            firstPassStep agg)
          (Block.mk false [("x", raw), ("x_num", .num q)]).extracted_data) "x").isNumV = true
      rw [hagg1, hw]
      rw [List.foldl_cons, List.foldl_cons, List.foldl_nil]
      have hsecond_num : ∀ d : Dict,
          secondPassStep [("x", raw), ("x_num", .num q)] d ("x_num", .num q) = d := by
        intro d
        simp [secondPassStep, strEndsWith]
      rw [hsecond_num]
      simp only [secondPassStep, strEndsWith]
      simp only [h1, h2, h3, h4]
      norm_num
      have hbd_mem : dictMem [("x", raw), ("x_num", PyVal.num q)] "x_num" = true := by
        simp [dictMem]
      have hbd_get : dictGet [("x", raw), ("x_num", PyVal.num q)] "x_num" =
          .num q := by
        simp [dictGet]
      try simp only [hbd_mem, hbd_get]
      try norm_num
      by_cases hxm : dictMem agg "x" = true
      · rcases hxg : dictGet agg "x" with _ | c | s
        · simp [hxm, hx_mem, hx_get, hxg, PyVal.isNumV, dictGet_dictSet,
            dictMem, dictGet]
        · simp [hxm, hx_mem, hx_get, hxg, PyVal.isNumV, dictGet_dictSet,
            dictMem, dictGet]
        · simp [hxm, hx_mem, hx_get, hxg, PyVal.isNumV, dictGet_dictSet,
            dictMem, dictGet]
      · have hxm' : dictMem agg "x" = false := by simpa using hxm
        simp [hxm', hx_mem, hx_get, PyVal.isNumV, dictGet_dictSet,
          dictMem, dictGet]
    · simp only [processBlock, List.foldl_cons, List.foldl_nil]
      have ha : firstPassStep (firstPassStep [] ("x", raw)) ("x_num", .num q) =
          [("x_num", .num q)] := by
        simp [firstPassStep, strEndsWith, dictMem, dictSet, areaNumKeys]
      rw [ha]
      have hsecond_num :
          secondPassStep [("x", raw), ("x_num", .num q)]
            (secondPassStep [("x", raw), ("x_num", .num q)]
              [("x_num", .num q)] ("x", raw)) ("x_num", .num q) =
          secondPassStep [("x", raw), ("x_num", .num q)]
            [("x_num", .num q)] ("x", raw) := by
        simp [secondPassStep, strEndsWith]
      rw [hsecond_num]
      simp only [secondPassStep, strEndsWith]
      simp only [h1, h2, h3, h4]
      norm_num
      simp [dictMem, dictGet, dictSet, PyVal.isNumV]
  · intro q qs
    refine ⟨?_, le_foldl_max q qs, foldl_max_mem q qs⟩
    unfold aggregate_block_data
    rw [List.map_cons, List.foldl_cons]
    have h0 : (if (mkNumBlock q).is_invalid then ([] : Dict)
        else processBlock [] (mkNumBlock q)) = [("x_num", .num q)] := rfl
    rw [h0, foldl_mkNumBlock]
    simp [dictGet]

/-- Witness for C7 (amended): an invalid block between two valid ones
changes nothing; raw `"450"` next to pre-parsed `450` keeps the
numeric form; `x_num` values 3, 9, 5 across three blocks aggregate to
their maximum 9. -/
theorem aggregate_block_data_spec_witness :
    dictGet (processBlock [] ⟨false, [("x", .str "450"), ("x_num", .num 450)]⟩)
      "x" = .num 450 ∧
    dictGet (aggregate_block_data ([3, 9, 5].map mkNumBlock)) "x_num" =
      .num 9 := by
  constructor
  · exact (aggregate_block_data_spec.2.1 [] (.str "450") 450
      (by simp) (by simp) (by simp) (by simp)).2
  · have h := (aggregate_block_data_spec.2.2 3 [9, 5]).1
    have hmax : ([9, 5] : List ℚ).foldl max 3 = 9 := by
      norm_num [List.foldl_cons, List.foldl_nil, max_def]
    rw [show ([3, 9, 5] : List ℚ) = 3 :: [9, 5] from rfl] at *
    rw [h, hmax]
